import Mathlib

/-!
Shallow embedding of `daisy/tcp/tcp_client.py` (class `TCPClient`).

The client state mirrors the Python instance fields:
  * `stream`          : `self.stream` (`None` or a `TCPStream` wrapper),
  * `message_queue`   : `self.message_queue` (thread-safe FIFO, modelled as a list,
                        front = next element `get` returns),
  * `exception_queue` : `self.exception_queue` (FIFO of captured exceptions),
  * `closeCalls`      : instrumentation counting how many times `stream.close()`
                        has been invoked over the client's lifetime (the source
                        calls it only inside `_receive`).

The `TCPStream` collaborator (`daisy/tcp/tcp_stream.py`, external to the core
per the spec) is modelled by its observable effects: the ordered list of
messages handed to `send_message`.  Its fallible operations (`send_message`
raising, `_get_message` returning a message or raising) are supplied as
explicit parameters / wire events, since the transport is a collaborator.

Methods that in Python raise exceptions return `Except Exn _ × TCPClient`:
the first component is the outcome (raised exception or return value), the
second the post-state, since `_check_for_errors` mutates the exception queue
even on the raising path.
-/

namespace Daisy

/-- Messages exchanged over the stream: opaque application payloads plus the
two control messages from `daisy/tcp/internal_messages.py`. -/
inductive TCPMessage where
  | appMsg (payload : Nat)
  | notifyClientDisconnect
  | ackClientDisconnect
deriving DecidableEq

/-- Exceptions that can cross the reactor boundary: `NotConnected` from
`daisy/tcp/exceptions.py`, plus transport failures raised by the stream. -/
inductive Exn where
  | notConnected
  | streamClosedError
  | transportError (code : Nat)
deriving DecidableEq

/-- Observable state of the `TCPStream` collaborator: the ordered list of
messages written to it. -/
structure TCPStream where
  sent : List TCPMessage
deriving DecidableEq

/-- `TCPStream.send_message` in the successful case: the message is appended
to the wire in order. -/
def TCPStream.send_message (s : TCPStream) (m : TCPMessage) : TCPStream :=
  { s with sent := s.sent ++ [m] }

/-- The instance fields of `TCPClient` (see module docstring above). -/
structure TCPClient where
  stream : Option TCPStream
  message_queue : List TCPMessage
  exception_queue : List Exn
  closeCalls : Nat
deriving DecidableEq

/-- `TCPClient.connected`: `return self.stream is not None`. -/
def TCPClient.connected (c : TCPClient) : Bool :=
  c.stream.isSome

/-- `TCPClient._check_for_errors`: pop the front of the exception queue
(non-blocking `get`); if one is present raise it (the pop persists), else
return normally. -/
def TCPClient.check_for_errors (c : TCPClient) : Except Exn Unit × TCPClient :=
  match c.exception_queue with
  | [] => (Except.ok (), c)
  | e :: rest => (Except.error e, { c with exception_queue := rest })

/-- `TCPClient.send_message`: first `_check_for_errors` (re-raise a pending
error), then raise `NotConnected` if `self.stream is None`, else call
`self.stream.send_message(message)` directly on the calling thread.
`sendRaises` models whether that stream write raises (`some e`) or
succeeds (`none`); a raise propagates to the caller untouched. -/
def TCPClient.send_message (c : TCPClient) (m : TCPMessage) (sendRaises : Option Exn) :
    Except Exn Unit × TCPClient :=
  match c.check_for_errors with
  | (Except.error e, c1) => (Except.error e, c1)
  | (Except.ok _, c1) =>
      match c1.stream with
      | none => (Except.error Exn.notConnected, c1)
      | some s =>
          match sendRaises with
          | some e => (Except.error e, c1)
          | none => (Except.ok (), { c1 with stream := some (s.send_message m) })

/-- `TCPClient.get_message`: first `_check_for_errors`, then raise
`NotConnected` if not connected, else pop the front of the message queue;
an empty queue at timeout expiry returns `None` (modelled: empty list
returns `none`). -/
def TCPClient.get_message (c : TCPClient) : Except Exn (Option TCPMessage) × TCPClient :=
  match c.check_for_errors with
  | (Except.error e, c1) => (Except.error e, c1)
  | (Except.ok _, c1) =>
      match c1.stream with
      | none => (Except.error Exn.notConnected, c1)
      | some _ =>
          match c1.message_queue with
          | [] => (Except.ok none, c1)
          | m :: rest => (Except.ok (some m), { c1 with message_queue := rest })

/-- One interaction of the receive loop with the stream:
`self.stream._get_message()` either returns a message or raises. -/
inductive WireEvent where
  | msg (m : TCPMessage)
  | raise (e : Exn)
deriving DecidableEq

/-- How a run of the receive loop ended:
  * `awaiting`         : all supplied events consumed, loop suspended in the
                         next `await self.stream._get_message()`;
  * `ackStop`          : returned from the `AckClientDisconnect` branch;
  * `errStop e`        : returned from the `except` branch after capturing `e`;
  * `notConnectedStop` : the `while self.connected()` condition was false. -/
inductive LoopExit where
  | awaiting
  | ackStop
  | errStop (e : Exn)
  | notConnectedStop
deriving DecidableEq

/-- `TCPClient._receive`: `while self.connected():` await the next message;
on `AckClientDisconnect` close the stream, clear it and return; on any other
message append it to `message_queue` and continue; on an exception put it on
`exception_queue`, close the stream, clear it and return.  Events after a
returning branch are not consumed. -/
def TCPClient.receive : TCPClient → List WireEvent → TCPClient × LoopExit
  | c, [] =>
      if c.stream.isNone then (c, LoopExit.notConnectedStop) else (c, LoopExit.awaiting)
  | c, ev :: rest =>
      if c.stream.isNone then (c, LoopExit.notConnectedStop)
      else
        match ev with
        | WireEvent.msg TCPMessage.ackClientDisconnect =>
            ({ c with stream := none, closeCalls := c.closeCalls + 1 }, LoopExit.ackStop)
        | WireEvent.msg m =>
            TCPClient.receive { c with message_queue := c.message_queue ++ [m] } rest
        | WireEvent.raise e =>
            ({ c with
                stream := none
                closeCalls := c.closeCalls + 1
                exception_queue := c.exception_queue ++ [e] }, LoopExit.errStop e)

/-- `TCPClient._connect`: `await self.client.connect(...)` either yields a
stream (then `self.stream = TCPStream(stream)`) or raises `e` (then
`self.exception_queue.put(e)` and return).  The outcome of the collaborator
call is the `outcome` parameter. -/
def TCPClient.connectTask (c : TCPClient) (outcome : Except Exn TCPStream) : TCPClient :=
  match outcome with
  | Except.error e => { c with exception_queue := c.exception_queue ++ [e] }
  | Except.ok s => { c with stream := some s }

/-- `TCPClient.connect`: schedule `_connect`, then poll
`while not self.connected(): self._check_for_errors(); sleep(.1)`.
Sequentialised: run the connect task, then either observe the connection,
or raise the recorded error, or (`none`) poll forever. -/
def TCPClient.connect (c : TCPClient) (outcome : Except Exn TCPStream) :
    Option (Except Exn Unit × TCPClient) :=
  let c1 := TCPClient.connectTask c outcome
  if c1.connected then some (Except.ok (), c1)
  else
    match c1.check_for_errors with
    | (Except.error e, c2) => some (Except.error e, c2)
    | (Except.ok _, _) => none

/-- The fields `__init__` sets up before calling `self.connect()`. -/
def TCPClient.initialState : TCPClient :=
  { stream := none, message_queue := [], exception_queue := [], closeCalls := 0 }

/-- `TCPClient.__init__(host, port)`: create the fields, then call
`self.connect()` — construction itself performs the connect.  Returns the
constructed client, the exception construction raised, or `none` if the
poll loop never terminates. -/
def TCPClient.new (outcome : Except Exn TCPStream) : Option (Except Exn TCPClient) :=
  match TCPClient.connect TCPClient.initialState outcome with
  | none => none
  | some (Except.ok _, c) => some (Except.ok c)
  | some (Except.error e, _) => some (Except.error e)

/-- The first half of `TCPClient.disconnect` on a connected client:
`self.stream.send_message(NotifyClientDisconnect())` — the notify control
message is written to the stream, which stays open while the caller then
polls `while self.connected()`. -/
def TCPClient.notifyDisconnect (c : TCPClient) : TCPClient :=
  match c.stream with
  | none => c
  | some s => { c with stream := some (s.send_message TCPMessage.notifyClientDisconnect) }

/-- `TCPClient.disconnect`: if not connected, warn and return (`Bool` result
is `true` when the warning branch was taken).  Otherwise send
`NotifyClientDisconnect` and poll until the receive loop (driven here by
`evs`, the server's responses) clears the stream; if it never does, the
poll loop hangs (`none`). -/
def TCPClient.disconnect (c : TCPClient) (evs : List WireEvent) :
    Option (TCPClient × Bool) :=
  if c.connected then
    let c1 := TCPClient.notifyDisconnect c
    let c2 := (TCPClient.receive c1 evs).1
    if c2.connected then none else some (c2, false)
  else
    some (c, true)

/-- Iterate `get_message` `k` times, collecting the outcomes in order. -/
def TCPClient.getMessages : TCPClient → Nat → List (Except Exn (Option TCPMessage)) × TCPClient
  | c, 0 => ([], c)
  | c, Nat.succ k =>
      let r := c.get_message
      let rs := TCPClient.getMessages r.2 k
      (r.1 :: rs.1, rs.2)

/-- A wire trace of application messages with the given payloads. -/
def appEvents (ms : List Nat) : List WireEvent :=
  ms.map (fun n => WireEvent.msg (TCPMessage.appMsg n))

/-- A concrete fresh stream, for witnesses and counterexamples. -/
def demoStream : TCPStream := { sent := [] }

/-- A concrete freshly-connected client. -/
def demoConnected : TCPClient :=
  { stream := some demoStream, message_queue := [], exception_queue := [], closeCalls := 0 }

/-! ### Basic facts about the receive loop -/

/-- If the stream is already cleared, the `while self.connected()` condition is
false and the loop exits at once, leaving the state untouched. -/
theorem receive_stream_none (c : TCPClient) (evs : List WireEvent) (h : c.stream = none) :
    TCPClient.receive c evs = (c, LoopExit.notConnectedStop) := by
  cases evs with
  | nil => simp [TCPClient.receive, h]
  | cons ev rest => simp [TCPClient.receive, h]

/-- One-step unfolding: a connected loop with no pending event suspends. -/
theorem receive_nil (c : TCPClient) (s : TCPStream) (hs : c.stream = some s) :
    TCPClient.receive c [] = (c, LoopExit.awaiting) := by
  simp [TCPClient.receive, hs]

/-- One-step unfolding: a non-control message is appended to the queue and the
loop continues. -/
theorem receive_cons_msg (c : TCPClient) (s : TCPStream) (hs : c.stream = some s)
    (m : TCPMessage) (hm : m ≠ TCPMessage.ackClientDisconnect) (rest : List WireEvent) :
    TCPClient.receive c (WireEvent.msg m :: rest) =
    TCPClient.receive { c with message_queue := c.message_queue ++ [m] } rest := by
  cases m with
  | appMsg n => simp [TCPClient.receive, hs]
  | notifyClientDisconnect => simp [TCPClient.receive, hs]
  | ackClientDisconnect => exact absurd rfl hm

/-- One-step unfolding: `AckClientDisconnect` closes the stream, clears it and
returns. -/
theorem receive_cons_ack (c : TCPClient) (s : TCPStream) (hs : c.stream = some s)
    (rest : List WireEvent) :
    TCPClient.receive c (WireEvent.msg TCPMessage.ackClientDisconnect :: rest) =
    ({ c with stream := none, closeCalls := c.closeCalls + 1 }, LoopExit.ackStop) := by
  rw [TCPClient.receive]
  simp [hs]

/-- One-step unfolding: an exception is recorded, the stream closed and
cleared, and the loop returns. -/
theorem receive_cons_raise (c : TCPClient) (s : TCPStream) (hs : c.stream = some s)
    (e : Exn) (rest : List WireEvent) :
    TCPClient.receive c (WireEvent.raise e :: rest) =
    ({ c with
        stream := none
        closeCalls := c.closeCalls + 1
        exception_queue := c.exception_queue ++ [e] }, LoopExit.errStop e) := by
  rw [TCPClient.receive]
  simp [hs]

/-- From a connected state the loop never exits through the
`while self.connected()` condition: it is either still awaiting a message,
or returned from the `AckClientDisconnect` branch, or from the exception
branch. -/
theorem receive_exit_cases (evs : List WireEvent) : ∀ c : TCPClient, c.connected = true →
    (TCPClient.receive c evs).2 = LoopExit.awaiting ∨
    (TCPClient.receive c evs).2 = LoopExit.ackStop ∨
    ∃ e, (TCPClient.receive c evs).2 = LoopExit.errStop e := by
  induction evs with
  | nil =>
      intro c hc
      rw [TCPClient.connected] at hc
      obtain ⟨s, hs⟩ := Option.isSome_iff_exists.mp hc
      rw [receive_nil c s hs]
      simp
  | cons ev rest ih =>
      intro c hc
      rw [TCPClient.connected] at hc
      obtain ⟨s, hs⟩ := Option.isSome_iff_exists.mp hc
      cases ev with
      | msg m =>
          by_cases hm : m = TCPMessage.ackClientDisconnect
          · subst hm
            rw [receive_cons_ack c s hs]
            simp
          · rw [receive_cons_msg c s hs m hm]
            exact ih _ (by simp [TCPClient.connected, hs])
      | raise e =>
          rw [receive_cons_raise c s hs]
          simp

/-- When the loop returned from the `AckClientDisconnect` branch it closed
the stream exactly once, cleared the stream reference and left the
exception queue alone. -/
theorem receive_ackStop_spec (evs : List WireEvent) : ∀ c : TCPClient,
    (TCPClient.receive c evs).2 = LoopExit.ackStop →
    (TCPClient.receive c evs).1.stream = none ∧
    (TCPClient.receive c evs).1.closeCalls = c.closeCalls + 1 ∧
    (TCPClient.receive c evs).1.exception_queue = c.exception_queue := by
  induction evs with
  | nil =>
      intro c h
      rcases hcs : c.stream with _ | s
      · rw [receive_stream_none c [] hcs] at h
        simp at h
      · rw [receive_nil c s hcs] at h
        simp at h
  | cons ev rest ih =>
      intro c h
      rcases hcs : c.stream with _ | s
      · rw [receive_stream_none c _ hcs] at h
        simp at h
      · cases ev with
        | msg m =>
            by_cases hm : m = TCPMessage.ackClientDisconnect
            · subst hm
              rw [receive_cons_ack c s hcs] at h ⊢
              simp
            · rw [receive_cons_msg c s hcs m hm] at h ⊢
              simpa using ih _ h
        | raise e =>
            rw [receive_cons_raise c s hcs] at h
            simp at h

/-- When the loop returned from the exception branch with `e` it recorded `e`
at the back of the exception queue, closed the stream exactly once and
cleared the stream reference. -/
theorem receive_errStop_spec (evs : List WireEvent) : ∀ (c : TCPClient) (e : Exn),
    (TCPClient.receive c evs).2 = LoopExit.errStop e →
    (TCPClient.receive c evs).1.stream = none ∧
    (TCPClient.receive c evs).1.closeCalls = c.closeCalls + 1 ∧
    (TCPClient.receive c evs).1.exception_queue = c.exception_queue ++ [e] := by
  induction evs with
  | nil =>
      intro c e h
      rcases hcs : c.stream with _ | s
      · rw [receive_stream_none c [] hcs] at h
        simp at h
      · rw [receive_nil c s hcs] at h
        simp at h
  | cons ev rest ih =>
      intro c e h
      rcases hcs : c.stream with _ | s
      · rw [receive_stream_none c _ hcs] at h
        simp at h
      · cases ev with
        | msg m =>
            by_cases hm : m = TCPMessage.ackClientDisconnect
            · subst hm
              rw [receive_cons_ack c s hcs] at h
              simp at h
            · rw [receive_cons_msg c s hcs m hm] at h ⊢
              simpa using ih _ e h
        | raise e2 =>
            rw [receive_cons_raise c s hcs] at h ⊢
            simp at h
            simp [h]

/-- While the loop is still awaiting (no terminating event consumed) the
stream, exception queue and close count are untouched. -/
theorem receive_awaiting_spec (evs : List WireEvent) : ∀ c : TCPClient,
    (TCPClient.receive c evs).2 = LoopExit.awaiting →
    (TCPClient.receive c evs).1.stream = c.stream ∧
    (TCPClient.receive c evs).1.closeCalls = c.closeCalls ∧
    (TCPClient.receive c evs).1.exception_queue = c.exception_queue := by
  induction evs with
  | nil =>
      intro c h
      rcases hcs : c.stream with _ | s
      · rw [receive_stream_none c [] hcs]
        simp [hcs]
      · rw [receive_nil c s hcs]
        simp [hcs]
  | cons ev rest ih =>
      intro c h
      rcases hcs : c.stream with _ | s
      · rw [receive_stream_none c _ hcs] at h
        simp at h
      · cases ev with
        | msg m =>
            by_cases hm : m = TCPMessage.ackClientDisconnect
            · subst hm
              rw [receive_cons_ack c s hcs] at h
              simp at h
            · rw [receive_cons_msg c s hcs m hm] at h ⊢
              simpa [hcs] using ih _ h
        | raise e =>
            rw [receive_cons_raise c s hcs] at h
            simp at h

/-- Processing a trace of application messages appends them to the inbound
queue in arrival order (no reorder, duplication or drop) and leaves the
stream, exception queue and close count untouched. -/
theorem receive_appEvents (ms : List Nat) : ∀ (c : TCPClient) (s : TCPStream),
    c.stream = some s →
    TCPClient.receive c (appEvents ms) =
      ({ c with message_queue := c.message_queue ++ ms.map TCPMessage.appMsg },
        LoopExit.awaiting) := by
  induction ms with
  | nil =>
      intro c s hs
      rw [appEvents]
      simp only [List.map_nil]
      rw [receive_nil c s hs]
      simp
  | cons n rest ih =>
      intro c s hs
      rw [appEvents]
      simp only [List.map_cons]
      rw [receive_cons_msg c s hs _ (by simp), ← appEvents,
        ih { c with message_queue := c.message_queue ++ [TCPMessage.appMsg n] } s
          (by simp [hs])]
      simp

/-- Processing application messages followed by `AckClientDisconnect`: the
messages are all appended to the queue in order, then the stream is closed
once and cleared. -/
theorem receive_appEvents_ack (ms : List Nat) : ∀ (c : TCPClient) (s : TCPStream),
    c.stream = some s →
    TCPClient.receive c
        (appEvents ms ++ [WireEvent.msg TCPMessage.ackClientDisconnect]) =
      ({ c with
          stream := none
          message_queue := c.message_queue ++ ms.map TCPMessage.appMsg
          closeCalls := c.closeCalls + 1 }, LoopExit.ackStop) := by
  induction ms with
  | nil =>
      intro c s hs
      rw [appEvents]
      simp only [List.map_nil, List.nil_append]
      rw [receive_cons_ack c s hs]
      simp
  | cons n rest ih =>
      intro c s hs
      rw [appEvents]
      simp only [List.map_cons, List.cons_append]
      rw [receive_cons_msg c s hs _ (by simp), ← appEvents,
        ih { c with message_queue := c.message_queue ++ [TCPMessage.appMsg n] } s
          (by simp [hs])]
      simp

/-! ### Basic facts about the synchronous operations -/

/-- `get_message` when a reactor error is pending: the error is raised and
popped, nothing else changes. -/
theorem get_message_pending_error (c : TCPClient) (e : Exn) (rest : List Exn)
    (he : c.exception_queue = e :: rest) :
    c.get_message = (Except.error e, { c with exception_queue := rest }) := by
  simp [TCPClient.get_message, TCPClient.check_for_errors, he]

/-- `get_message` with no pending error on a disconnected client raises
`NotConnected` and changes nothing. -/
theorem get_message_disconnected (c : TCPClient) (he : c.exception_queue = [])
    (hs : c.stream = none) :
    c.get_message = (Except.error Exn.notConnected, c) := by
  simp [TCPClient.get_message, TCPClient.check_for_errors, he, hs]

/-- `get_message` on a connected, error-free client pops the front of the
inbound queue. -/
theorem get_message_pop (c : TCPClient) (s : TCPStream) (m : TCPMessage)
    (q : List TCPMessage) (he : c.exception_queue = []) (hs : c.stream = some s)
    (hq : c.message_queue = m :: q) :
    c.get_message = (Except.ok (some m), { c with message_queue := q }) := by
  simp [TCPClient.get_message, TCPClient.check_for_errors, he, hs, hq]

/-- `send_message` when a reactor error is pending: the error is raised and
popped, the message is not written. -/
theorem send_message_pending_error (c : TCPClient) (m : TCPMessage) (o : Option Exn)
    (e : Exn) (rest : List Exn) (he : c.exception_queue = e :: rest) :
    c.send_message m o = (Except.error e, { c with exception_queue := rest }) := by
  simp [TCPClient.send_message, TCPClient.check_for_errors, he]

/-- `send_message` with no pending error on a disconnected client raises
`NotConnected` and changes nothing. -/
theorem send_message_disconnected (c : TCPClient) (m : TCPMessage) (o : Option Exn)
    (he : c.exception_queue = []) (hs : c.stream = none) :
    c.send_message m o = (Except.error Exn.notConnected, c) := by
  simp [TCPClient.send_message, TCPClient.check_for_errors, he, hs]

/-- Draining a queue of `l` messages with `l.length` calls to `get_message`
returns exactly the queued messages, in queue order. -/
theorem getMessages_drain (l : List TCPMessage) : ∀ (c : TCPClient) (s : TCPStream),
    c.stream = some s → c.exception_queue = [] → c.message_queue = l →
    (TCPClient.getMessages c l.length).1 = l.map (fun m => Except.ok (some m)) := by
  induction l with
  | nil =>
      intro c s hs he hq
      simp [TCPClient.getMessages]
  | cons m q ih =>
      intro c s hs he hq
      have hg := get_message_pop c s m q he hs hq
      have ih2 := ih { c with message_queue := q } s (by simp [hs]) (by simp [he]) rfl
      simp [TCPClient.getMessages, hg, ih2]

/-- A client state after a completed graceful disconnect, for witnesses. -/
def demoDisconnected : TCPClient :=
  { stream := none, message_queue := [], exception_queue := [], closeCalls := 1 }

/-! ### The claims -/

/-- Claim C1 is false of the code: after the receive loop processes
`AckClientDisconnect`, an application message received before it is still
sitting in the inbound queue, yet `get_message` fails with `NotConnected`
instead of returning it. -/
theorem C1_counterexample :
    ((TCPClient.receive demoConnected
        [WireEvent.msg (TCPMessage.appMsg 1),
         WireEvent.msg TCPMessage.ackClientDisconnect]).1).message_queue =
      [TCPMessage.appMsg 1] ∧
    ((TCPClient.receive demoConnected
        [WireEvent.msg (TCPMessage.appMsg 1),
         WireEvent.msg TCPMessage.ackClientDisconnect]).1).get_message =
      (Except.error Exn.notConnected,
        (TCPClient.receive demoConnected
          [WireEvent.msg (TCPMessage.appMsg 1),
           WireEvent.msg TCPMessage.ackClientDisconnect]).1) :=
  ⟨rfl, rfl⟩

/-- Claim C1 (amended): once the receive loop has processed the server's
`AckClientDisconnect`, the connection is reported disconnected immediately
and `get_message` raises `NotConnected` — even though all N application
messages received beforehand are still in the inbound queue, in arrival
order; they are retrievable only before the loop processes the
acknowledgement. -/
theorem C1_amended (c : TCPClient) (s : TCPStream) (ms : List Nat)
    (hs : c.stream = some s) (he : c.exception_queue = []) :
    ((TCPClient.receive c
        (appEvents ms ++ [WireEvent.msg TCPMessage.ackClientDisconnect])).1).message_queue
        = c.message_queue ++ ms.map TCPMessage.appMsg ∧
    ((TCPClient.receive c
        (appEvents ms ++ [WireEvent.msg TCPMessage.ackClientDisconnect])).1).connected
        = false ∧
    ((TCPClient.receive c
        (appEvents ms ++ [WireEvent.msg TCPMessage.ackClientDisconnect])).1).get_message
      = (Except.error Exn.notConnected,
          (TCPClient.receive c
            (appEvents ms ++ [WireEvent.msg TCPMessage.ackClientDisconnect])).1) := by
  rw [receive_appEvents_ack ms c s hs]
  refine ⟨rfl, rfl, ?_⟩
  exact get_message_disconnected _ (by simp [he]) rfl

/-- Claim C1 (amended) at a concrete input. -/
theorem C1_witness :
    ((TCPClient.receive demoConnected
        (appEvents [1, 2] ++ [WireEvent.msg TCPMessage.ackClientDisconnect])).1).message_queue
        = demoConnected.message_queue ++ [1, 2].map TCPMessage.appMsg ∧
    ((TCPClient.receive demoConnected
        (appEvents [1, 2] ++ [WireEvent.msg TCPMessage.ackClientDisconnect])).1).connected
        = false ∧
    ((TCPClient.receive demoConnected
        (appEvents [1, 2] ++ [WireEvent.msg TCPMessage.ackClientDisconnect])).1).get_message
      = (Except.error Exn.notConnected,
          (TCPClient.receive demoConnected
            (appEvents [1, 2] ++ [WireEvent.msg TCPMessage.ackClientDisconnect])).1) :=
  C1_amended demoConnected demoStream [1, 2] rfl rfl

/-- Claim C2: application messages arriving on the wire are appended to the
inbound queue in arrival order, and `get_message` pops from the front, so
repeated calls return exactly the arrived messages in arrival order — no
reordering, duplication or dropping. -/
theorem C2_order_preserved (c : TCPClient) (s : TCPStream) (ms : List Nat)
    (hs : c.stream = some s) (he : c.exception_queue = [])
    (hq : c.message_queue = []) :
    ((TCPClient.receive c (appEvents ms)).1).message_queue =
      ms.map TCPMessage.appMsg ∧
    (TCPClient.getMessages (TCPClient.receive c (appEvents ms)).1 ms.length).1 =
      ms.map (fun n => Except.ok (some (TCPMessage.appMsg n))) := by
  rw [receive_appEvents ms c s hs]
  refine ⟨by simp [hq], ?_⟩
  have hd := getMessages_drain (ms.map TCPMessage.appMsg)
    { c with message_queue := c.message_queue ++ ms.map TCPMessage.appMsg } s
    (by simp [hs]) (by simp [he]) (by simp [hq])
  simpa [List.map_map, Function.comp] using hd

/-- Claim C2 at a concrete input. -/
theorem C2_witness :
    ((TCPClient.receive demoConnected (appEvents [3, 1, 2])).1).message_queue =
      [3, 1, 2].map TCPMessage.appMsg ∧
    (TCPClient.getMessages (TCPClient.receive demoConnected (appEvents [3, 1, 2])).1
        [3, 1, 2].length).1 =
      [3, 1, 2].map (fun n => Except.ok (some (TCPMessage.appMsg n))) :=
  C2_order_preserved demoConnected demoStream [3, 1, 2] rfl rfl rfl

/-- Claim C3: `send_message` first re-raises (and pops) any pending reactor
error; with no pending error it raises `NotConnected` whenever the stream is
absent — in particular on a never-connected client, never silently dropping
the message — and otherwise writes the message to the stream. -/
theorem C3_send_message_contract (c : TCPClient) (m : TCPMessage) (o : Option Exn) :
    (∀ (e : Exn) (rest : List Exn), c.exception_queue = e :: rest →
      c.send_message m o = (Except.error e, { c with exception_queue := rest })) ∧
    (c.exception_queue = [] → c.stream = none →
      c.send_message m o = (Except.error Exn.notConnected, c)) ∧
    (∀ s : TCPStream, c.exception_queue = [] → c.stream = some s →
      c.send_message m none =
        (Except.ok (), { c with stream := some (s.send_message m) })) := by
  refine ⟨?_, ?_, ?_⟩
  · intro e rest he
    exact send_message_pending_error c m o e rest he
  · intro he hs
    exact send_message_disconnected c m o he hs
  · intro s he hs
    simp [TCPClient.send_message, TCPClient.check_for_errors, he, hs]

/-- Claim C3 at a concrete input: `send_message` on the freshly constructed,
never-connected field state raises `NotConnected`. -/
theorem C3_witness :
    TCPClient.send_message TCPClient.initialState (TCPMessage.appMsg 7) none =
      (Except.error Exn.notConnected, TCPClient.initialState) :=
  (C3_send_message_contract TCPClient.initialState (TCPMessage.appMsg 7) none).2.1 rfl rfl

/-- Claim C4: a failure recorded by the receive loop is observed exactly once:
the first synchronous call (here `get_message`) raises the captured error and
pops it from the exception queue, and every later `get_message` or
`send_message` on the now-disconnected client raises `NotConnected`. -/
theorem C4_error_observed_once (c : TCPClient) (evs : List WireEvent) (e : Exn)
    (m : TCPMessage) (o : Option Exn) (he : c.exception_queue = [])
    (hx : (TCPClient.receive c evs).2 = LoopExit.errStop e) :
    ((TCPClient.receive c evs).1).exception_queue = [e] ∧
    ((TCPClient.receive c evs).1).connected = false ∧
    ((TCPClient.receive c evs).1).get_message =
      (Except.error e, { (TCPClient.receive c evs).1 with exception_queue := [] }) ∧
    ({ (TCPClient.receive c evs).1 with exception_queue := ([] : List Exn) }).get_message =
      (Except.error Exn.notConnected,
        { (TCPClient.receive c evs).1 with exception_queue := [] }) ∧
    ({ (TCPClient.receive c evs).1 with exception_queue := ([] : List Exn) }).send_message m o =
      (Except.error Exn.notConnected,
        { (TCPClient.receive c evs).1 with exception_queue := [] }) := by
  obtain ⟨h1, h2, h3⟩ := receive_errStop_spec evs c e hx
  rw [he] at h3
  refine ⟨h3, by simp [TCPClient.connected, h1], ?_, ?_, ?_⟩
  · exact get_message_pending_error _ e [] h3
  · exact get_message_disconnected _ rfl (by simp [h1])
  · exact send_message_disconnected _ m o rfl (by simp [h1])

/-- Claim C4 at a concrete input. -/
theorem C4_witness :
    ((TCPClient.receive demoConnected [WireEvent.raise Exn.streamClosedError]).1).exception_queue
      = [Exn.streamClosedError] ∧
    ((TCPClient.receive demoConnected [WireEvent.raise Exn.streamClosedError]).1).connected
      = false ∧
    ((TCPClient.receive demoConnected [WireEvent.raise Exn.streamClosedError]).1).get_message =
      (Except.error Exn.streamClosedError,
        { (TCPClient.receive demoConnected [WireEvent.raise Exn.streamClosedError]).1 with
            exception_queue := [] }) ∧
    ({ (TCPClient.receive demoConnected [WireEvent.raise Exn.streamClosedError]).1 with
        exception_queue := ([] : List Exn) }).get_message =
      (Except.error Exn.notConnected,
        { (TCPClient.receive demoConnected [WireEvent.raise Exn.streamClosedError]).1 with
            exception_queue := [] }) ∧
    ({ (TCPClient.receive demoConnected [WireEvent.raise Exn.streamClosedError]).1 with
        exception_queue := ([] : List Exn) }).send_message (TCPMessage.appMsg 9) none =
      (Except.error Exn.notConnected,
        { (TCPClient.receive demoConnected [WireEvent.raise Exn.streamClosedError]).1 with
            exception_queue := [] }) :=
  C4_error_observed_once demoConnected [WireEvent.raise Exn.streamClosedError]
    Exn.streamClosedError (TCPMessage.appMsg 9) none rfl (by decide)

/-- Claim C5: from a connected state the receive loop terminates either via
the `AckClientDisconnect` branch (the only normal path) or via the exception
branch — never through the loop condition — and on `AckClientDisconnect` it
closes the stream exactly once, clears the stream reference, leaves the
client disconnected and returns. -/
theorem C5_ack_termination (c : TCPClient) (evs : List WireEvent)
    (hc : c.connected = true) :
    ((TCPClient.receive c evs).2 = LoopExit.awaiting ∨
     (TCPClient.receive c evs).2 = LoopExit.ackStop ∨
     ∃ e, (TCPClient.receive c evs).2 = LoopExit.errStop e) ∧
    ((TCPClient.receive c evs).2 = LoopExit.ackStop →
      ((TCPClient.receive c evs).1).stream = none ∧
      ((TCPClient.receive c evs).1).connected = false ∧
      ((TCPClient.receive c evs).1).closeCalls = c.closeCalls + 1 ∧
      ((TCPClient.receive c evs).1).exception_queue = c.exception_queue) := by
  refine ⟨receive_exit_cases evs c hc, ?_⟩
  intro h
  obtain ⟨h1, h2, h3⟩ := receive_ackStop_spec evs c h
  exact ⟨h1, by simp [TCPClient.connected, h1], h2, h3⟩

/-- Claim C5 at a concrete input: one `AckClientDisconnect` yields exactly one
close and a cleared stream. -/
theorem C5_witness :
    ((TCPClient.receive demoConnected [WireEvent.msg TCPMessage.ackClientDisconnect]).1).stream
      = none ∧
    ((TCPClient.receive demoConnected [WireEvent.msg TCPMessage.ackClientDisconnect]).1).connected
      = false ∧
    ((TCPClient.receive demoConnected [WireEvent.msg TCPMessage.ackClientDisconnect]).1).closeCalls
      = demoConnected.closeCalls + 1 ∧
    ((TCPClient.receive demoConnected
        [WireEvent.msg TCPMessage.ackClientDisconnect]).1).exception_queue
      = demoConnected.exception_queue :=
  (C5_ack_termination demoConnected [WireEvent.msg TCPMessage.ackClientDisconnect] rfl).2
    (by decide)

/-- Claim C6: when the receive loop hits a stream failure it records the
exception at the back of the exception queue, closes the stream exactly once,
clears the stream reference, leaves the client disconnected and returns;
consequently a live error record implies the client is disconnected — never
silently half-open. -/
theorem C6_error_couples_disconnect (c : TCPClient) (evs : List WireEvent)
    (hc : c.connected = true) :
    (∀ e : Exn, (TCPClient.receive c evs).2 = LoopExit.errStop e →
      ((TCPClient.receive c evs).1).exception_queue = c.exception_queue ++ [e] ∧
      ((TCPClient.receive c evs).1).stream = none ∧
      ((TCPClient.receive c evs).1).connected = false ∧
      ((TCPClient.receive c evs).1).closeCalls = c.closeCalls + 1) ∧
    (c.exception_queue = [] →
      ((TCPClient.receive c evs).1).exception_queue ≠ [] →
      ((TCPClient.receive c evs).1).connected = false) := by
  constructor
  · intro e hx
    obtain ⟨h1, h2, h3⟩ := receive_errStop_spec evs c e hx
    exact ⟨h3, h1, by simp [TCPClient.connected, h1], h2⟩
  · intro he hne
    rcases receive_exit_cases evs c hc with h | h | ⟨e, h⟩
    · obtain ⟨_, _, h3⟩ := receive_awaiting_spec evs c h
      exact absurd (by rw [h3, he]) hne
    · obtain ⟨_, _, h3⟩ := receive_ackStop_spec evs c h
      exact absurd (by rw [h3, he]) hne
    · obtain ⟨h1, _, _⟩ := receive_errStop_spec evs c e h
      simp [TCPClient.connected, h1]

/-- Claim C6 at a concrete input. -/
theorem C6_witness :
    ((TCPClient.receive demoConnected [WireEvent.raise (Exn.transportError 3)]).1).exception_queue
      = demoConnected.exception_queue ++ [Exn.transportError 3] ∧
    ((TCPClient.receive demoConnected [WireEvent.raise (Exn.transportError 3)]).1).stream
      = none ∧
    ((TCPClient.receive demoConnected [WireEvent.raise (Exn.transportError 3)]).1).connected
      = false ∧
    ((TCPClient.receive demoConnected [WireEvent.raise (Exn.transportError 3)]).1).closeCalls
      = demoConnected.closeCalls + 1 :=
  (C6_error_couples_disconnect demoConnected [WireEvent.raise (Exn.transportError 3)] rfl).1
    (Exn.transportError 3) (by decide)

/-- Claim C7 is false of the code: right after `disconnect` sends
`NotifyClientDisconnect` — the Disconnecting phase, before the receive loop
observes the acknowledgement — the stream reference is still set and
`connected()` returns `true`, not `false` as claimed. -/
theorem C7_counterexample :
    (TCPClient.notifyDisconnect demoConnected).stream ≠ none ∧
    (TCPClient.notifyDisconnect demoConnected).connected = true := by
  decide

/-- Claim C7 (amended): `connected` is side-effect-free and returns true iff
the stream reference is non-null, i.e. iff the state is Connected or
Disconnecting: it still returns `true` after the disconnect handshake begins
(and while further application messages arrive), becoming `false` only once
the receive loop has processed `AckClientDisconnect`. -/
theorem C7_amended (c : TCPClient) (s : TCPStream) (ms : List Nat)
    (hs : c.stream = some s) :
    (c.connected = true ↔ c.stream ≠ none) ∧
    (TCPClient.notifyDisconnect c).connected = true ∧
    ((TCPClient.receive (TCPClient.notifyDisconnect c) (appEvents ms)).1).connected
      = true ∧
    ((TCPClient.receive (TCPClient.notifyDisconnect c)
        (appEvents ms ++ [WireEvent.msg TCPMessage.ackClientDisconnect])).1).connected
      = false := by
  have hns : (TCPClient.notifyDisconnect c).stream =
      some (s.send_message TCPMessage.notifyClientDisconnect) := by
    simp [TCPClient.notifyDisconnect, hs]
  refine ⟨by simp [TCPClient.connected, Option.isSome_iff_ne_none], ?_, ?_, ?_⟩
  · simp [TCPClient.connected, hns]
  · rw [receive_appEvents ms (TCPClient.notifyDisconnect c) _ hns]
    simp [TCPClient.connected, hns]
  · rw [receive_appEvents_ack ms (TCPClient.notifyDisconnect c) _ hns]
    simp [TCPClient.connected]

/-- Claim C7 (amended) at a concrete input. -/
theorem C7_witness :
    (demoConnected.connected = true ↔ demoConnected.stream ≠ none) ∧
    (TCPClient.notifyDisconnect demoConnected).connected = true ∧
    ((TCPClient.receive (TCPClient.notifyDisconnect demoConnected)
        (appEvents [4])).1).connected = true ∧
    ((TCPClient.receive (TCPClient.notifyDisconnect demoConnected)
        (appEvents [4] ++ [WireEvent.msg TCPMessage.ackClientDisconnect])).1).connected
      = false :=
  C7_amended demoConnected demoStream [4] rfl

/-- Claim C8 is false of the code: `__init__` itself calls `connect()`, so a
successfully constructed client is already connected — it is never observable
in a Disconnected state. -/
theorem C8_counterexample :
    TCPClient.new (Except.ok demoStream) = some (Except.ok demoConnected) ∧
    demoConnected.connected = true :=
  ⟨rfl, rfl⟩

/-- Claim C8 (amended): the field state set up before `connect()` is
disconnected, but construction itself performs the connect: a successful
construction yields a client whose stream is already established, and a
failed connect makes construction raise that error (no usable client in a
Disconnected state ever escapes the constructor). -/
theorem C8_amended :
    TCPClient.initialState.connected = false ∧
    (∀ s : TCPStream, TCPClient.new (Except.ok s) =
      some (Except.ok { TCPClient.initialState with stream := some s })) ∧
    (∀ e : Exn, TCPClient.new (Except.error e) = some (Except.error e)) := by
  refine ⟨rfl, fun s => rfl, fun e => rfl⟩

/-- Claim C9: `disconnect` is idempotent at the public interface: once a
`disconnect` has completed, the client is disconnected and a further
`disconnect` returns normally as a warning-only no-op, leaving the state
unchanged. -/
theorem C9_disconnect_idempotent (c cAfter : TCPClient) (evs evs2 : List WireEvent)
    (w : Bool) (h : TCPClient.disconnect c evs = some (cAfter, w)) :
    cAfter.connected = false ∧
    TCPClient.disconnect cAfter evs2 = some (cAfter, true) := by
  have hmain : cAfter.connected = false := by
    simp only [TCPClient.disconnect] at h
    split at h
    · split at h
      · exact absurd h (by simp)
      · rename_i hc2
        simp only [Option.some.injEq, Prod.mk.injEq] at h
        obtain ⟨h3, _⟩ := h
        rw [← h3]
        simpa using hc2
    · rename_i hc
      simp only [Option.some.injEq, Prod.mk.injEq] at h
      obtain ⟨h3, _⟩ := h
      rw [← h3]
      simpa using hc
  exact ⟨hmain, by simp [TCPClient.disconnect, hmain]⟩

/-- Claim C9 at a concrete input: a completed graceful disconnect followed by
a second `disconnect`, which warns and changes nothing. -/
theorem C9_witness :
    demoDisconnected.connected = false ∧
    TCPClient.disconnect demoDisconnected [] = some (demoDisconnected, true) :=
  C9_disconnect_idempotent demoConnected demoDisconnected
    [WireEvent.msg TCPMessage.ackClientDisconnect] [] false (by decide)

/-- Claim C10: when the stream write inside `send_message` raises on a
connected, error-free client, the exception propagates to the caller with the
client state completely unchanged: nothing is recorded in the exception
queue, the stream reference stays set, and `connected()` is still true. -/
theorem C10_send_failure_propagates (c : TCPClient) (s : TCPStream) (m : TCPMessage)
    (e : Exn) (he : c.exception_queue = []) (hs : c.stream = some s) :
    c.send_message m (some e) = (Except.error e, c) ∧
    c.connected = true ∧
    c.exception_queue = [] := by
  refine ⟨?_, by simp [TCPClient.connected, hs], he⟩
  simp [TCPClient.send_message, TCPClient.check_for_errors, he, hs]

/-- Claim C10 at a concrete input. -/
theorem C10_witness :
    demoConnected.send_message (TCPMessage.appMsg 2) (some Exn.streamClosedError) =
      (Except.error Exn.streamClosedError, demoConnected) ∧
    demoConnected.connected = true ∧
    demoConnected.exception_queue = [] :=
  C10_send_failure_propagates demoConnected demoStream (TCPMessage.appMsg 2)
    Exn.streamClosedError rfl rfl

end Daisy
